import Mathlib

/-!
Shallow embedding of `create_branches_prs.py`: the branch/draft-PR
provisioning pipeline.  External command execution is modelled by an
oracle `Env : Nat → ExecutionResult` giving the outcome of the n-th
spawned process; the pipeline produces a trace of events (commands
issued, lines printed, sleeps) together with the updated process count.
-/

namespace CreateBranchesPrs

/-- Outcome of one external command (`subprocess.run` result). -/
structure ExecutionResult where
  returncode : Int
  stdout : String
  stderr : String
deriving Repr, DecidableEq

/-- One work item loaded from the issues file: `title`, `body`, and
`labels` (via `issue.get("labels", [])`, defaulting to empty). -/
structure Issue where
  title : String
  body : String
  labels : List String
deriving Repr, DecidableEq

/-- Observable effects of a run: an external command spawned (with the
result the environment returned for it), a printed line, or a sleep. -/
inductive Event where
  | cmd (argv : List String) (res : ExecutionResult)
  | print (s : String)
  | sleep (secs : Nat)
deriving Repr, DecidableEq

/-- The oracle for external processes: result of the `k`-th spawned command. -/
abbrev Env := Nat → ExecutionResult

def BASE_BRANCH : String := "main"

def ISSUE_START_NUMBER : Nat := 121

def BRANCH_MAP : List String :=
  ["feature/phase0-1-use-task-store",
   "feature/phase0-2-shellview-real-data",
   "feature/phase0-3-timer-task-bridge",
   "feature/phase1-1-nowhub-anchor-controls",
   "feature/phase1-2-ambient-task-list",
   "feature/phase1-3-next-candidates-real-data",
   "feature/phase1-4-pressure-model",
   "feature/phase1-5-timer-layout",
   "feature/phase2-1-taskboard-two-columns",
   "feature/phase2-2-taskcard-all-actions",
   "feature/phase2-3-task-create-dialog",
   "feature/phase2-4-task-detail-drawer",
   "feature/phase3-1-schedule-timeline",
   "feature/phase3-2-google-calendar",
   "feature/phase4-1-stats-dashboard",
   "feature/phase5-1-settings-view",
   "feature/phase5-2-anchor-floating",
   "feature/phase5-3-final-integration"]

/-- `run(cmd, check=True)` from the source: spawn the command, and when
`check` is set and the exit code is nonzero, print an ERROR diagnostic
containing the stripped stderr; always return the result.  Returns
(result, events, next process index). -/
def run (env : Env) (k : Nat) (cmd : List String) (check : Bool) :
    ExecutionResult × List Event × Nat :=
  let result := env k
  let evs :=
    if check = true ∧ result.returncode ≠ 0 then
      [Event.cmd cmd result, Event.print ("  ERROR: " ++ result.stderr.trim)]
    else
      [Event.cmd cmd result]
  (result, evs, k + 1)

/-- `issue_num = ISSUE_START_NUMBER + idx` (line 63 of the source). -/
def derivedItemId (idx : Nat) : Nat := ISSUE_START_NUMBER + idx

/-- `pr_body = f"Closes #{issue_num}\n\n---\n\n{issue['body']}"`. -/
def pr_body (idx : Nat) (issue : Issue) : String :=
  "Closes #" ++ toString (derivedItemId idx) ++ "\n\n---\n\n" ++ issue.body

/-- The base `gh pr create` argv (lines 91–98 and 108–115). -/
def pr_cmd_no_labels (idx : Nat) (issue : Issue) (branch : String) : List String :=
  ["gh", "pr", "create",
   "--base", BASE_BRANCH,
   "--head", branch,
   "--title", issue.title,
   "--body", pr_body idx issue,
   "--draft"]

/-- `for label in labels: pr_cmd.extend(["--label", label])`. -/
def labelArgs : List String → List String
  | [] => []
  | l :: ls => "--label" :: l :: labelArgs ls

/-- The first-attempt `gh pr create` argv, labels included (lines 99–100). -/
def pr_cmd (idx : Nat) (issue : Issue) (branch : String) : List String :=
  pr_cmd_no_labels idx issue branch ++ labelArgs issue.labels

/-- One iteration of the per-item loop (lines 62–123 of the source),
for the item at zero-based position `idx`, with `n` the catalog length
and `k` processes already spawned.  Returns the events of this
iteration and the updated process count. -/
def loopBody (env : Env) (dry_run : Bool) (n idx : Nat) (issue : Issue)
    (branch : String) (k : Nat) : List Event × Nat :=
  let header :=
    [Event.print ("[" ++ toString (idx + 1) ++ "/" ++ toString n ++ "] #" ++
       toString (derivedItemId idx) ++ " " ++ issue.title),
     Event.print ("  Branch: " ++ branch)]
  if dry_run = true then
    (header ++ [Event.print ""], k)
  else
    let s1 := run env k ["git", "checkout", BASE_BRANCH] true
    let s2 := run env s1.2.2 ["git", "branch", "-D", branch] false
    let s3 := run env s2.2.2 ["git", "checkout", "-b", branch] true
    let s4 := run env s3.2.2
      ["git", "commit", "--allow-empty", "-m",
       "chore: init branch for #" ++ toString (derivedItemId idx) ++ " - " ++
         issue.title] true
    let s5 := run env s4.2.2 ["git", "push", "-u", "origin", branch] true
    if s5.1.returncode ≠ 0 then
      (header ++ s1.2.1 ++ s2.2.1 ++ s3.2.1 ++ s4.2.1 ++ s5.2.1 ++
         [Event.print "  SKIP PR (push failed)", Event.print ""], s5.2.2)
    else
      let s6 := run env s5.2.2 (pr_cmd idx issue branch) true
      if s6.1.returncode = 0 then
        (header ++ s1.2.1 ++ s2.2.1 ++ s3.2.1 ++ s4.2.1 ++ s5.2.1 ++ s6.2.1 ++
           [Event.print ("  ✓ PR: " ++ s6.1.stdout.trim),
            Event.print "", Event.sleep 1], s6.2.2)
      else
        let s7 := run env s6.2.2 (pr_cmd_no_labels idx issue branch) false
        let msg :=
          if s7.1.returncode = 0 then
            Event.print ("  ✓ PR (no labels): " ++ s7.1.stdout.trim)
          else
            Event.print ("  ✗ PR failed: " ++ s7.1.stderr.trim)
        (header ++ s1.2.1 ++ s2.2.1 ++ s3.2.1 ++ s4.2.1 ++ s5.2.1 ++ s6.2.1 ++
           s7.2.1 ++ [msg, Event.print "", Event.sleep 1], s7.2.2)

/-- The per-item loop: `for idx, (issue, branch) in enumerate(zip(issues, BRANCH_MAP))`. -/
def mainLoop (env : Env) (dry_run : Bool) (n : Nat) :
    Nat → Nat → List (Issue × String) → List Event × Nat
  | _, k, [] => ([], k)
  | idx, k, (issue, branch) :: rest =>
    let item := loopBody env dry_run n idx issue branch k
    let restOut := mainLoop env dry_run n (idx + 1) item.2 rest
    (item.1 ++ restOut.1, restOut.2)

/-- Did the whole run complete, or abort at the length assertion? -/
inductive Outcome where
  | ok
  | assertFailed
deriving Repr, DecidableEq

/-- `main()` from the source, with the issues-file contents and the
branch map as parameters and the process oracle `env`: assert the
lengths match, run the per-item loop, then unconditionally
`run(["git", "checkout", BASE_BRANCH])` and print the final message.
On assertion failure the run aborts having produced no events. -/
def main (env : Env) (issues : List Issue) (branch_map : List String)
    (dry_run : Bool) : List Event × Outcome :=
  if issues.length = branch_map.length then
    let header :=
      Event.print ((if dry_run then "[DRY RUN] " else "") ++ "Creating " ++
        toString issues.length ++ " branches + draft PRs...\n")
    let loopOut := mainLoop env dry_run issues.length 0 0 (issues.zip branch_map)
    let fin := run env loopOut.2 ["git", "checkout", BASE_BRANCH] true
    (header :: loopOut.1 ++ fin.2.1 ++
       [Event.print "Done! Returned to main branch."], Outcome.ok)
  else
    ([], Outcome.assertFailed)

/-- The argv sequences of the external commands a trace spawns, in order. -/
def cmds : List Event → List (List String)
  | [] => []
  | Event.cmd argv _ :: es => argv :: cmds es
  | Event.print _ :: es => cmds es
  | Event.sleep _ :: es => cmds es

/-- Is an event a sleep? -/
def Event.isSleep : Event → Bool
  | .sleep _ => true
  | _ => false

theorem cmds_append (xs ys : List Event) :
    cmds (xs ++ ys) = cmds xs ++ cmds ys := by
  induction xs with
  | nil => rfl
  | cons e es ih => cases e <;> simp [cmds, ih]

theorem run_res (env : Env) (k : Nat) (c : List String) (b : Bool) :
    (run env k c b).1 = env k := rfl

theorem run_k (env : Env) (k : Nat) (c : List String) (b : Bool) :
    (run env k c b).2.2 = k + 1 := rfl

theorem cmds_run (env : Env) (k : Nat) (c : List String) (b : Bool) :
    cmds (run env k c b).2.1 = [c] := by
  simp only [run]
  split <;> rfl

theorem sleep_not_mem_run (env : Env) (k : Nat) (c : List String) (b : Bool)
    (s : Nat) : Event.sleep s ∉ (run env k c b).2.1 := by
  simp only [run]
  split <;> simp

theorem error_print_mem_run (env : Env) (k : Nat) (c : List String)
    (h : (env k).returncode ≠ 0) :
    Event.print ("  ERROR: " ++ (env k).stderr.trim) ∈ (run env k c true).2.1 := by
  simp [run, h]


/-- The five git commands every live-mode iteration issues (lines 75–83). -/
def gitCmds (idx : Nat) (issue : Issue) (branch : String) : List (List String) :=
  [["git", "checkout", BASE_BRANCH],
   ["git", "branch", "-D", branch],
   ["git", "checkout", "-b", branch],
   ["git", "commit", "--allow-empty", "-m",
     "chore: init branch for #" ++ toString (derivedItemId idx) ++ " - " ++
       issue.title],
   ["git", "push", "-u", "origin", branch]]

theorem cmds_ite_print (c : Prop) [Decidable c] (a b : String) (es : List Event) :
    cmds ((if c then Event.print a else Event.print b) :: es) = cmds es := by
  split <;> rfl

theorem getLast?_sleep (xs ys : List Event) (h : ys.getLast? = some (Event.sleep 1)) :
    (xs ++ ys).getLast? = some (Event.sleep 1) := by
  have hne : ys ≠ [] := by intro hn; rw [hn] at h; exact Option.noConfusion h
  rw [List.getLast?_append_of_ne_nil _ hne, h]

theorem getLast?_cons_sleep (e : Event) (l : List Event)
    (h : l.getLast? = some (Event.sleep 1)) :
    (e :: l).getLast? = some (Event.sleep 1) := by
  cases l with
  | nil => exact Option.noConfusion h
  | cons a t => rw [List.getLast?_cons_cons]; exact h

theorem loopBody_push_fail (env : Env) (n idx : Nat) (issue : Issue)
    (branch : String) (k : Nat) (h : (env (k + 4)).returncode ≠ 0) :
    cmds (loopBody env false n idx issue branch k).1 = gitCmds idx issue branch ∧
    (loopBody env false n idx issue branch k).2 = k + 5 ∧
    Event.print "  SKIP PR (push failed)" ∈ (loopBody env false n idx issue branch k).1 ∧
    ∀ s, Event.sleep s ∉ (loopBody env false n idx issue branch k).1 := by
  have h' : (env (k + 1 + 1 + 1 + 1)).returncode ≠ 0 := h
  simp only [loopBody, run_k, run_res, Bool.false_eq_true, if_false, if_pos h']
  refine ⟨?_, trivial, ?_, ?_⟩
  · simp [cmds_append, cmds_run, cmds, gitCmds]
  · simp
  · intro s
    simp [sleep_not_mem_run]

theorem loopBody_pr_ok (env : Env) (n idx : Nat) (issue : Issue)
    (branch : String) (k : Nat) (h5 : (env (k + 4)).returncode = 0)
    (h6 : (env (k + 5)).returncode = 0) :
    cmds (loopBody env false n idx issue branch k).1 =
      gitCmds idx issue branch ++ [pr_cmd idx issue branch] ∧
    (loopBody env false n idx issue branch k).2 = k + 6 ∧
    (loopBody env false n idx issue branch k).1.getLast? = some (Event.sleep 1) := by
  have h5' : ¬ (env (k + 1 + 1 + 1 + 1)).returncode ≠ 0 := by simpa using h5
  have h6' : (env (k + 1 + 1 + 1 + 1 + 1)).returncode = 0 := h6
  simp only [loopBody, run_k, run_res, Bool.false_eq_true, if_false, if_neg h5',
    if_pos h6']
  refine ⟨?_, trivial, ?_⟩
  · simp [cmds_append, cmds_run, cmds, gitCmds]
  · repeat first
      | rfl
      | apply getLast?_cons_sleep
      | apply getLast?_sleep

theorem loopBody_pr_retry (env : Env) (n idx : Nat) (issue : Issue)
    (branch : String) (k : Nat) (h5 : (env (k + 4)).returncode = 0)
    (h6 : (env (k + 5)).returncode ≠ 0) :
    cmds (loopBody env false n idx issue branch k).1 =
      gitCmds idx issue branch ++
        [pr_cmd idx issue branch, pr_cmd_no_labels idx issue branch] ∧
    (loopBody env false n idx issue branch k).2 = k + 7 ∧
    (loopBody env false n idx issue branch k).1.getLast? = some (Event.sleep 1) ∧
    ((env (k + 6)).returncode ≠ 0 →
      Event.print ("  ✗ PR failed: " ++ (env (k + 6)).stderr.trim) ∈
        (loopBody env false n idx issue branch k).1) := by
  have h5' : ¬ (env (k + 1 + 1 + 1 + 1)).returncode ≠ 0 := by simpa using h5
  have h6' : ¬ (env (k + 1 + 1 + 1 + 1 + 1)).returncode = 0 := h6
  simp only [loopBody, run_k, run_res, Bool.false_eq_true, if_false, if_neg h5',
    if_neg h6']
  refine ⟨?_, trivial, ?_, ?_⟩
  · simp [cmds_append, cmds_run, cmds, gitCmds, cmds_ite_print]
  · repeat first
      | rfl
      | apply getLast?_cons_sleep
      | apply getLast?_sleep
  · intro h7
    have h7' : ¬ (env (k + 1 + 1 + 1 + 1 + 1 + 1)).returncode = 0 := h7
    simp [if_neg h7']

/-- The three printed lines each dry-run iteration produces, over a
suffix of the enumerated item list. -/
def dryPrints (n : Nat) : Nat → List (Issue × String) → List Event
  | _, [] => []
  | idx, (issue, branch) :: rest =>
    Event.print ("[" ++ toString (idx + 1) ++ "/" ++ toString n ++ "] #" ++
      toString (derivedItemId idx) ++ " " ++ issue.title) ::
    Event.print ("  Branch: " ++ branch) ::
    Event.print "" :: dryPrints n (idx + 1) rest

theorem mainLoop_dry (env : Env) (n : Nat) :
    ∀ (pairs : List (Issue × String)) (idx k : Nat),
      mainLoop env true n idx k pairs = (dryPrints n idx pairs, k) := by
  intro pairs
  induction pairs with
  | nil => intro idx k; rfl
  | cons p rest ih =>
    intro idx k
    obtain ⟨issue, branch⟩ := p
    simp [mainLoop, loopBody, dryPrints, ih]

theorem cmds_dryPrints (n : Nat) :
    ∀ (pairs : List (Issue × String)) (idx : Nat), cmds (dryPrints n idx pairs) = [] := by
  intro pairs
  induction pairs with
  | nil => intro idx; rfl
  | cons p rest ih =>
    intro idx
    obtain ⟨issue, branch⟩ := p
    simp [dryPrints, cmds, ih]

theorem five_le_cmds_loopBody (env : Env) (n idx : Nat) (issue : Issue)
    (branch : String) (k : Nat) :
    5 ≤ (cmds (loopBody env false n idx issue branch k).1).length := by
  by_cases h5 : (env (k + 4)).returncode = 0
  · by_cases h6 : (env (k + 5)).returncode = 0
    · rw [(loopBody_pr_ok env n idx issue branch k h5 h6).1]
      simp [gitCmds]
    · rw [(loopBody_pr_retry env n idx issue branch k h5 h6).1]
      simp [gitCmds]
  · rw [(loopBody_push_fail env n idx issue branch k h5).1]
    simp [gitCmds]

theorem cmds_mainLoop_lower (env : Env) (n : Nat) :
    ∀ (pairs : List (Issue × String)) (idx k : Nat),
      5 * pairs.length ≤ (cmds (mainLoop env false n idx k pairs).1).length := by
  intro pairs
  induction pairs with
  | nil => intro idx k; simp [mainLoop, cmds]
  | cons p rest ih =>
    intro idx k
    obtain ⟨issue, branch⟩ := p
    simp only [mainLoop, cmds_append, List.length_append, List.length_cons]
    have h1 := five_le_cmds_loopBody env n idx issue branch k
    have h2 := ih (idx + 1) ((loopBody env false n idx issue branch k).2)
    omega

theorem sleep_not_mem_dryPrints (n : Nat) :
    ∀ (pairs : List (Issue × String)) (idx : Nat) (s : Nat),
      Event.sleep s ∉ dryPrints n idx pairs := by
  intro pairs
  induction pairs with
  | nil => intro idx s; simp [dryPrints]
  | cons p rest ih =>
    intro idx s
    obtain ⟨issue, branch⟩ := p
    simp [dryPrints, ih]

theorem string_append_assoc (a b c : String) : a ++ b ++ c = a ++ (b ++ c) := by
  apply String.ext
  simp [String.data_append, List.append_assoc]

/-- An environment where every command succeeds. -/
def env0 : Env := fun _ => ⟨0, "", ""⟩

/-- An environment where every command exits 1 with stderr "boom". -/
def envAllFail : Env := fun _ => ⟨1, "", "boom"⟩

/-- An environment where only the first push (process 4) fails. -/
def envPushFail : Env := fun k => if k = 4 then ⟨1, "", "push denied"⟩ else ⟨0, "", ""⟩

/-- An environment where the first `gh pr create` (process 5) and its
retry (process 6) fail, everything else succeeds. -/
def envPrFail : Env :=
  fun k => if k = 5 then ⟨1, "", "label missing"⟩
    else if k = 6 then ⟨1, "", "still failing"⟩
    else ⟨0, "", ""⟩

/-- A work item with one label. -/
def issueA : Issue := ⟨"Title A", "Body A", ["phase-0"]⟩

/-- A work item with no labels. -/
def issueB : Issue := ⟨"Title B", "Body B", []⟩

/-- C1: when the catalog and branch-name list lengths differ, the run
aborts at the assertion before the per-item loop: zero external commands
are issued and the outcome is the assertion failure. -/
theorem C1_mismatch_aborts_before_any_command (env : Env) (issues : List Issue)
    (branch_map : List String) (dry_run : Bool)
    (h : issues.length ≠ branch_map.length) :
    cmds (main env issues branch_map dry_run).1 = [] ∧
    (main env issues branch_map dry_run).2 = Outcome.assertFailed := by
  simp [main, h, cmds]

theorem C1_witness :
    ([issueA].length ≠ ([] : List String).length) ∧
    cmds (main env0 [issueA] [] false).1 = [] ∧
    (main env0 [issueA] [] false).2 = Outcome.assertFailed :=
  ⟨by decide, C1_mismatch_aborts_before_any_command env0 [issueA] [] false (by decide)⟩

/-- C9: for every argv and check flag, `run` always returns the
execution result to the caller (never terminating the run), spawns
exactly one external command, and on nonzero exit with the flag set it
prints a diagnostic containing the captured (stripped) stderr text. -/
theorem C9_run_always_returns_result (env : Env) (k : Nat) (cmd : List String)
    (check : Bool) :
    (run env k cmd check).1 = env k ∧
    (run env k cmd check).2.2 = k + 1 ∧
    cmds (run env k cmd check).2.1 = [cmd] ∧
    (check = true → (env k).returncode ≠ 0 →
      ∃ pre, Event.print (pre ++ (env k).stderr.trim) ∈ (run env k cmd check).2.1) := by
  refine ⟨rfl, rfl, cmds_run env k cmd check, ?_⟩
  intro hc h
  subst hc
  exact ⟨"  ERROR: ", error_print_mem_run env k cmd h⟩

theorem C9_witness :
    (run envAllFail 0 ["git", "checkout", "main"] true).1 = envAllFail 0 ∧
    ∃ pre, Event.print (pre ++ (envAllFail 0).stderr.trim) ∈
      (run envAllFail 0 ["git", "checkout", "main"] true).2.1 := by
  have h := C9_run_always_returns_result envAllFail 0 ["git", "checkout", "main"] true
  exact ⟨h.1, h.2.2.2 rfl (by decide)⟩

/-- C7: for every run that enters the per-item loop, whatever the
per-item outcomes, the final external command of the run is the switch
back to the base branch. -/
theorem C7_final_command_is_checkout_base (env : Env) (issues : List Issue)
    (branch_map : List String) (dry_run : Bool)
    (h : issues.length = branch_map.length) (hne : issues ≠ []) :
    (cmds (main env issues branch_map dry_run).1).getLast? =
      some ["git", "checkout", BASE_BRANCH] := by
  simp only [main, if_pos h]
  simp only [cmds, List.append_eq, cmds_append, cmds_run, List.append_nil]
  rw [List.getLast?_append_of_ne_nil _ (by simp)]
  rfl

theorem C7_witness :
    ([issueA].length = (["feature/x"] : List String).length) ∧
    ([issueA] : List Issue) ≠ [] ∧
    (cmds (main envAllFail [issueA] ["feature/x"] false).1).getLast? =
      some ["git", "checkout", BASE_BRANCH] :=
  ⟨by decide, by decide,
    C7_final_command_is_checkout_base envAllFail [issueA] ["feature/x"] false
      (by decide) (by decide)⟩

theorem error_prints_in_loopBody (env : Env) (n idx : Nat) (issue : Issue)
    (branch : String) (k : Nat) :
    ((env k).returncode ≠ 0 →
      Event.print ("  ERROR: " ++ (env k).stderr.trim) ∈
        (loopBody env false n idx issue branch k).1) ∧
    ((env (k + 2)).returncode ≠ 0 →
      Event.print ("  ERROR: " ++ (env (k + 2)).stderr.trim) ∈
        (loopBody env false n idx issue branch k).1) := by
  constructor
  · intro h
    have hm : Event.print ("  ERROR: " ++ (env k).stderr.trim) ∈
        (run env k ["git", "checkout", BASE_BRANCH] true).2.1 :=
      error_print_mem_run env k ["git", "checkout", BASE_BRANCH] h
    simp only [loopBody, run_k, run_res, Bool.false_eq_true, if_false]
    split
    · simp only [List.cons_append, List.mem_cons, List.mem_append]
      tauto
    · split <;>
        (simp only [List.cons_append, List.mem_cons, List.mem_append]; tauto)
  · intro h
    have hm : Event.print ("  ERROR: " ++ (env (k + 2)).stderr.trim) ∈
        (run env (k + 1 + 1) ["git", "checkout", "-b", branch] true).2.1 :=
      error_print_mem_run env (k + 1 + 1) ["git", "checkout", "-b", branch] h
    simp only [loopBody, run_k, run_res, Bool.false_eq_true, if_false]
    split
    · simp only [List.cons_append, List.mem_cons, List.mem_append]
      tauto
    · split <;>
        (simp only [List.cons_append, List.mem_cons, List.mem_append]; tauto)

/-- C2 counterexample: with every external command failing, the
switch-to-base command of the only item exits nonzero, yet the run goes
on to issue five further external commands (the rest of the item's git
sequence and the final checkout): the failure is not fatal. -/
theorem C2_counterexample :
    (envAllFail 0).returncode ≠ 0 ∧
    (cmds (main envAllFail [issueB] ["feature/x"] false).1).head? =
      some ["git", "checkout", "main"] ∧
    (cmds (main envAllFail [issueB] ["feature/x"] false).1).length = 6 := by
  refine ⟨by decide, ?_, ?_⟩ <;> rfl

/-- C2 (amended): in live mode a nonzero exit of the switch-to-base
command or of the create-target-branch command is NOT fatal: the runner
prints an ERROR diagnostic and the iteration still issues its whole git
sequence (and possibly the request-creation commands) afterwards. -/
theorem C2_base_switch_and_branch_create_failures_not_fatal (env : Env)
    (n idx : Nat) (issue : Issue) (branch : String) (k : Nat) :
    (∃ tail, cmds (loopBody env false n idx issue branch k).1 =
        gitCmds idx issue branch ++ tail) ∧
    ((env k).returncode ≠ 0 →
      Event.print ("  ERROR: " ++ (env k).stderr.trim) ∈
        (loopBody env false n idx issue branch k).1) ∧
    ((env (k + 2)).returncode ≠ 0 →
      Event.print ("  ERROR: " ++ (env (k + 2)).stderr.trim) ∈
        (loopBody env false n idx issue branch k).1) := by
  refine ⟨?_, (error_prints_in_loopBody env n idx issue branch k).1,
    (error_prints_in_loopBody env n idx issue branch k).2⟩
  by_cases h5 : (env (k + 4)).returncode = 0
  · by_cases h6 : (env (k + 5)).returncode = 0
    · exact ⟨[pr_cmd idx issue branch],
        (loopBody_pr_ok env n idx issue branch k h5 h6).1⟩
    · exact ⟨[pr_cmd idx issue branch, pr_cmd_no_labels idx issue branch],
        (loopBody_pr_retry env n idx issue branch k h5 h6).1⟩
  · exact ⟨[], by
      rw [(loopBody_push_fail env n idx issue branch k h5).1, List.append_nil]⟩

theorem C2_amended_witness :
    (envAllFail 0).returncode ≠ 0 ∧
    Event.print ("  ERROR: " ++ (envAllFail 0).stderr.trim) ∈
      (loopBody envAllFail false 1 0 issueB "feature/x" 0).1 :=
  ⟨by decide,
    (C2_base_switch_and_branch_create_failures_not_fatal
      envAllFail 1 0 issueB "feature/x" 0).2.1 (by decide)⟩

/-- C3: when an item's push exits nonzero, that iteration issues exactly
the five git commands (no request-creation command), prints the skip
notice, and the loop still processes every remaining item (each issuing
at least its five git commands). -/
theorem C3_push_failure_skips_request_and_continues (env : Env) (n idx : Nat)
    (issue : Issue) (branch : String) (k : Nat) (rest : List (Issue × String))
    (h : (env (k + 4)).returncode ≠ 0) :
    cmds (loopBody env false n idx issue branch k).1 = gitCmds idx issue branch ∧
    (∀ c ∈ cmds (loopBody env false n idx issue branch k).1,
      c.head? ≠ some "gh") ∧
    Event.print "  SKIP PR (push failed)" ∈
      (loopBody env false n idx issue branch k).1 ∧
    (mainLoop env false n idx k ((issue, branch) :: rest)).1 =
      (loopBody env false n idx issue branch k).1 ++
        (mainLoop env false n (idx + 1) (k + 5) rest).1 ∧
    5 * rest.length ≤
      (cmds (mainLoop env false n (idx + 1) (k + 5) rest).1).length := by
  obtain ⟨hc, hk, hm, _⟩ := loopBody_push_fail env n idx issue branch k h
  refine ⟨hc, ?_, hm, ?_, cmds_mainLoop_lower env n rest (idx + 1) (k + 5)⟩
  · rw [hc]
    intro c hcm
    simp only [gitCmds, List.mem_cons, List.not_mem_nil, or_false] at hcm
    rcases hcm with h1 | h1 | h1 | h1 | h1 <;> subst h1 <;> simp
  · simp only [mainLoop]
    rw [hk]

theorem C3_witness :
    (envPushFail (0 + 4)).returncode ≠ 0 ∧
    Event.print "  SKIP PR (push failed)" ∈
      (loopBody envPushFail false 2 0 issueA "feature/x" 0).1 :=
  ⟨by decide,
    (C3_push_failure_skips_request_and_continues envPushFail 2 0 issueA
      "feature/x" 0 [(issueB, "feature/y")] (by decide)).2.2.1⟩

/-- C4: when the first draft-request creation command fails, exactly one
retry is issued, identical to the first attempt except that the label
arguments are omitted; no third attempt is made; if the retry also fails
the captured error is printed; the iteration ends with the inter-item
pause and the loop continues with the remaining items. -/
theorem C4_single_retry_without_labels (env : Env) (n idx : Nat)
    (issue : Issue) (branch : String) (k : Nat)
    (rest : List (Issue × String))
    (h5 : (env (k + 4)).returncode = 0) (h6 : (env (k + 5)).returncode ≠ 0) :
    cmds (loopBody env false n idx issue branch k).1 =
      gitCmds idx issue branch ++
        [pr_cmd idx issue branch, pr_cmd_no_labels idx issue branch] ∧
    pr_cmd idx issue branch =
      pr_cmd_no_labels idx issue branch ++ labelArgs issue.labels ∧
    ((env (k + 6)).returncode ≠ 0 →
      Event.print ("  ✗ PR failed: " ++ (env (k + 6)).stderr.trim) ∈
        (loopBody env false n idx issue branch k).1) ∧
    (loopBody env false n idx issue branch k).1.getLast? =
      some (Event.sleep 1) ∧
    (mainLoop env false n idx k ((issue, branch) :: rest)).1 =
      (loopBody env false n idx issue branch k).1 ++
        (mainLoop env false n (idx + 1) (k + 7) rest).1 := by
  obtain ⟨hc, hk, hl, hp⟩ := loopBody_pr_retry env n idx issue branch k h5 h6
  refine ⟨hc, rfl, hp, hl, ?_⟩
  simp only [mainLoop]
  rw [hk]

theorem C4_witness :
    (envPrFail (0 + 4)).returncode = 0 ∧
    (envPrFail (0 + 5)).returncode ≠ 0 ∧
    Event.print ("  ✗ PR failed: " ++ (envPrFail (0 + 6)).stderr.trim) ∈
      (loopBody envPrFail false 1 0 issueA "feature/x" 0).1 :=
  ⟨by decide, by decide,
    (C4_single_retry_without_labels envPrFail 1 0 issueA "feature/x" 0 []
      (by decide) (by decide)).2.2.1 (by decide)⟩

/-- C5 counterexample: in dry-run mode with a nonempty catalog the run
still issues one external command — the final switch back to the base
branch — so "zero external commands" is false. -/
theorem C5_counterexample :
    cmds (main env0 [issueB] ["feature/x"] true).1 =
      [["git", "checkout", "main"]] := by
  rfl

/-- C5 (amended): in dry-run mode (with matching lengths) the per-item
loop issues zero external commands and only prints the planned branch
name and derived item id per item; no sleep occurs; but the run's final
step still issues one external command, the switch back to the base
branch, which is the only command of the whole run. -/
theorem C5_dry_run_loop_is_pure (env : Env) (issues : List Issue)
    (branch_map : List String) (h : issues.length = branch_map.length) :
    cmds (main env issues branch_map true).1 =
      [["git", "checkout", BASE_BRANCH]] ∧
    (mainLoop env true issues.length 0 0 (issues.zip branch_map)).1 =
      dryPrints issues.length 0 (issues.zip branch_map) ∧
    ∀ s, Event.sleep s ∉ (main env issues branch_map true).1 := by
  have hd := mainLoop_dry env issues.length (issues.zip branch_map) 0 0
  refine ⟨?_, by rw [hd], ?_⟩
  · simp only [main, if_pos h, hd]
    simp [cmds, cmds_append, cmds_run, cmds_dryPrints, List.append_eq]
  · intro s
    simp only [main, if_pos h, hd]
    simp [List.mem_append, sleep_not_mem_dryPrints, sleep_not_mem_run]

theorem C5_amended_witness :
    ([issueA].length = (["feature/x"] : List String).length) ∧
    cmds (main env0 [issueA] ["feature/x"] true).1 =
      [["git", "checkout", BASE_BRANCH]] :=
  ⟨by decide,
    (C5_dry_run_loop_is_pure env0 [issueA] ["feature/x"] (by decide)).1⟩

theorem body_infix_pr_cmds (idx : Nat) (issue : Issue) (branch : String) :
    List.IsInfix ["--body", pr_body idx issue]
      (pr_cmd_no_labels idx issue branch) ∧
    List.IsInfix ["--body", pr_body idx issue] (pr_cmd idx issue branch) := by
  constructor
  · exact ⟨["gh", "pr", "create", "--base", BASE_BRANCH, "--head", branch,
      "--title", issue.title], ["--draft"], rfl⟩
  · exact ⟨["gh", "pr", "create", "--base", BASE_BRANCH, "--head", branch,
      "--title", issue.title], "--draft" :: labelArgs issue.labels, rfl⟩

/-- C6: for every item at zero-based position `idx`, the derived item id
equals the fixed start offset plus `idx`, and every request-creation
command that iteration issues carries a `--body` argument that begins
with the literal prefix `Closes #` followed by that derived id. -/
theorem C6_request_body_begins_with_closes_id (env : Env) (n idx : Nat)
    (issue : Issue) (branch : String) (k : Nat) (c : List String)
    (hc : c ∈ cmds (loopBody env false n idx issue branch k).1)
    (hgh : c.head? = some "gh") :
    derivedItemId idx = ISSUE_START_NUMBER + idx ∧
    List.IsInfix ["--body", pr_body idx issue] c ∧
    ∃ t, pr_body idx issue =
      ("Closes #" ++ toString (derivedItemId idx)) ++ t := by
  refine ⟨rfl, ?_, ⟨"\n\n---\n\n" ++ issue.body, ?_⟩⟩
  · by_cases h5 : (env (k + 4)).returncode = 0
    · by_cases h6 : (env (k + 5)).returncode = 0
      · rw [(loopBody_pr_ok env n idx issue branch k h5 h6).1] at hc
        simp only [gitCmds, List.cons_append, List.nil_append, List.mem_cons,
          List.not_mem_nil, or_false] at hc
        rcases hc with h1 | h1 | h1 | h1 | h1 | h1 <;> subst h1 <;>
          first
          | exact (body_infix_pr_cmds idx issue branch).2
          | exact (body_infix_pr_cmds idx issue branch).1
          | (rw [List.head?_cons] at hgh
             exact absurd (Option.some.inj hgh) (by decide))
      · rw [(loopBody_pr_retry env n idx issue branch k h5 h6).1] at hc
        simp only [gitCmds, List.cons_append, List.nil_append, List.mem_cons,
          List.not_mem_nil, or_false] at hc
        rcases hc with h1 | h1 | h1 | h1 | h1 | h1 | h1 <;> subst h1 <;>
          first
          | exact (body_infix_pr_cmds idx issue branch).2
          | exact (body_infix_pr_cmds idx issue branch).1
          | (rw [List.head?_cons] at hgh
             exact absurd (Option.some.inj hgh) (by decide))
    · rw [(loopBody_push_fail env n idx issue branch k h5).1] at hc
      simp only [gitCmds, List.mem_cons, List.not_mem_nil, or_false] at hc
      rcases hc with h1 | h1 | h1 | h1 | h1 <;> subst h1 <;>
        (rw [List.head?_cons] at hgh
         exact absurd (Option.some.inj hgh) (by decide))
  · simp only [pr_body]
    exact string_append_assoc _ _ _

theorem C6_witness :
    (pr_cmd 0 issueA "feature/x" ∈
      cmds (loopBody env0 false 1 0 issueA "feature/x" 0).1) ∧
    List.IsInfix ["--body", pr_body 0 issueA] (pr_cmd 0 issueA "feature/x") ∧
    ∃ t, pr_body 0 issueA =
      ("Closes #" ++ toString (derivedItemId 0)) ++ t := by
  have hc : pr_cmd 0 issueA "feature/x" ∈
      cmds (loopBody env0 false 1 0 issueA "feature/x" 0).1 := by
    rw [(loopBody_pr_ok env0 1 0 issueA "feature/x" 0 rfl rfl).1]
    simp
  have h := C6_request_body_begins_with_closes_id env0 1 0 issueA "feature/x" 0
    (pr_cmd 0 issueA "feature/x") hc rfl
  exact ⟨hc, h.2.1, h.2.2⟩

/-- C8 counterexample: with two items whose pushes both fail, no pause
occurs anywhere in the run — in particular none between item 1 and
item 2 although item 1 is not the last item — refuting "a pause occurs
after every non-final item regardless of the item's outcome". -/
theorem C8_counterexample :
    (envAllFail 4).returncode ≠ 0 ∧
    (main envAllFail [issueA, issueB] ["feature/x", "feature/y"]
        false).1.countP Event.isSleep = 0 := by
  refine ⟨by decide, ?_⟩
  rfl

/-- C8 (amended): in live mode the fixed pause ends an iteration exactly
when that item's push succeeded (regardless of the request-creation
outcome, and including the last item); when the push fails, the
`continue` skips the pause along with request creation. -/
theorem C8_pause_iff_push_succeeded (env : Env) (n idx : Nat) (issue : Issue)
    (branch : String) (k : Nat) :
    ((env (k + 4)).returncode = 0 →
      (loopBody env false n idx issue branch k).1.getLast? =
        some (Event.sleep 1)) ∧
    ((env (k + 4)).returncode ≠ 0 →
      ∀ s, Event.sleep s ∉ (loopBody env false n idx issue branch k).1) := by
  constructor
  · intro h5
    by_cases h6 : (env (k + 5)).returncode = 0
    · exact (loopBody_pr_ok env n idx issue branch k h5 h6).2.2
    · exact (loopBody_pr_retry env n idx issue branch k h5 h6).2.2.1
  · intro h5
    exact (loopBody_push_fail env n idx issue branch k h5).2.2.2

theorem C8_amended_witness :
    (env0 (0 + 4)).returncode = 0 ∧
    (loopBody env0 false 1 0 issueA "feature/x" 0).1.getLast? =
      some (Event.sleep 1) ∧
    (envPushFail (0 + 4)).returncode ≠ 0 ∧
    Event.sleep 1 ∉ (loopBody envPushFail false 1 0 issueA "feature/x" 0).1 :=
  ⟨rfl, (C8_pause_iff_push_succeeded env0 1 0 issueA "feature/x" 0).1 rfl,
   by decide,
   (C8_pause_iff_push_succeeded envPushFail 1 0 issueA "feature/x" 0).2
     (by decide) 1⟩

/-- C10: for an item whose labels list is empty, the first attempt and
the retry are the identical argv, element for element: request creation
is simply attempted twice with the same command. -/
theorem C10_empty_labels_identical_retry (env : Env) (n idx : Nat)
    (issue : Issue) (branch : String) (k : Nat) (hl : issue.labels = [])
    (h5 : (env (k + 4)).returncode = 0) (h6 : (env (k + 5)).returncode ≠ 0) :
    pr_cmd idx issue branch = pr_cmd_no_labels idx issue branch ∧
    cmds (loopBody env false n idx issue branch k).1 =
      gitCmds idx issue branch ++
        [pr_cmd_no_labels idx issue branch,
         pr_cmd_no_labels idx issue branch] := by
  have h1 : pr_cmd idx issue branch = pr_cmd_no_labels idx issue branch := by
    simp [pr_cmd, hl, labelArgs]
  refine ⟨h1, ?_⟩
  rw [(loopBody_pr_retry env n idx issue branch k h5 h6).1, h1]

theorem C10_witness :
    issueB.labels = [] ∧
    pr_cmd 0 issueB "feature/x" = pr_cmd_no_labels 0 issueB "feature/x" :=
  ⟨rfl, (C10_empty_labels_identical_retry envPrFail 1 0 issueB "feature/x" 0
    rfl (by decide) (by decide)).1⟩

end CreateBranchesPrs
